import Mathlib

/-!
The node `DetectionTo3DfromDepthNode` of the package `perception_2d_to_3d`.

A shallow embedding of `DetectionTo3DfromDepthNode.cpp` (the camera-info callback and the
synchronised depth/detection callback) together with the properties of the node's
specification that were checked against it.

Conventions of the embedding:

* `float`/`double` values are `Fp`: an exact rational or one of the IEEE specials
  (NaN, +Inf, -Inf).  Arithmetic on finite values is exact (no rounding, no signed zero).
* `cv::Mat::at` is unchecked pointer arithmetic: a read follows the row-major index, inside
  the sample buffer or outside it, where it finds what the surrounding `Memory` holds.
* Writing element 0 of an empty `std::vector` and reading an unassigned local stop the
  callback with an explicit `Fault`.
* Log calls and `publish` calls are collected, in program order, as a list of `Effect`s.
* The camera geometry (`rectifyPoint`, `projectPixelTo3dRay`) is an external collaborator and
  is a parameter of the embedding.
-/

namespace perception_2d_to_3d

/-! ## Floating-point values -/

/-- A `float`/`double` value: an exact rational, or an IEEE special value. -/
inductive Fp where
  | nan
  | posInf
  | negInf
  | fin (q : ℚ)
  deriving DecidableEq

namespace Fp

/-- The test `std::isnan`. -/
def isnan : Fp → Bool
  | nan => true
  | _ => false

/-- The test `std::isfinite`. -/
def isfinite : Fp → Bool
  | fin _ => true
  | _ => false

/-- An infinity of the given sign. -/
def inf (negative : Bool) : Fp := if negative then negInf else posInf

/-- Product of two values, IEEE rules for the specials, exact on finite values. -/
def mul : Fp → Fp → Fp
  | nan, _ => nan
  | _, nan => nan
  | fin a, fin b => fin (a * b)
  | fin a, posInf => if a = 0 then nan else inf (decide (a < 0))
  | fin a, negInf => if a = 0 then nan else inf (decide (0 < a))
  | posInf, fin b => if b = 0 then nan else inf (decide (b < 0))
  | negInf, fin b => if b = 0 then nan else inf (decide (0 < b))
  | posInf, posInf => posInf
  | posInf, negInf => negInf
  | negInf, posInf => negInf
  | negInf, negInf => posInf

/-- Quotient of two values, IEEE rules for the specials (a zero divisor counts as `+0`),
exact on finite values with a non-zero divisor. -/
def div : Fp → Fp → Fp
  | nan, _ => nan
  | _, nan => nan
  | fin a, fin b =>
    if b = 0 then (if a = 0 then nan else inf (decide (a < 0))) else fin (a / b)
  | fin _, posInf => fin 0
  | fin _, negInf => fin 0
  | posInf, fin b => inf (decide (b < 0))
  | negInf, fin b => inf (decide (0 ≤ b))
  | posInf, posInf => nan
  | posInf, negInf => nan
  | negInf, posInf => nan
  | negInf, negInf => nan

end Fp

/-! ## Messages -/

/-- Message `builtin_interfaces/Time`. -/
structure Time where
  sec : Int
  nanosec : Nat
  deriving DecidableEq

/-- Message `std_msgs/Header`. -/
structure Header where
  stamp : Time
  frame_id : String
  deriving DecidableEq

/-- Message `geometry_msgs/Point`. -/
structure Point where
  x : Fp
  y : Fp
  z : Fp
  deriving DecidableEq

/-- Message `geometry_msgs/Quaternion`. -/
structure Quaternion where
  x : Fp
  y : Fp
  z : Fp
  w : Fp
  deriving DecidableEq

/-- Message `geometry_msgs/Pose`. -/
structure Pose where
  position : Point
  orientation : Quaternion
  deriving DecidableEq

/-- Message `geometry_msgs/PoseWithCovariance`. -/
structure PoseWithCovariance where
  pose : Pose
  covariance : List Fp
  deriving DecidableEq

/-- Message `vision_msgs/ObjectHypothesis`. -/
structure ObjectHypothesis where
  class_id : String
  score : Fp
  deriving DecidableEq

/-- Message `vision_msgs/ObjectHypothesisWithPose`. -/
structure ObjectHypothesisWithPose where
  hypothesis : ObjectHypothesis
  pose : PoseWithCovariance
  deriving DecidableEq

/-- Message `vision_msgs/Point2D`. -/
structure Point2D where
  x : Fp
  y : Fp
  deriving DecidableEq

/-- Message `vision_msgs/Pose2D`. -/
structure Pose2D where
  position : Point2D
  theta : Fp
  deriving DecidableEq

/-- Message `vision_msgs/BoundingBox2D`. -/
structure BoundingBox2D where
  center : Pose2D
  size_x : Fp
  size_y : Fp
  deriving DecidableEq

/-- Message `vision_msgs/Detection2D`. -/
structure Detection2D where
  header : Header
  results : List ObjectHypothesisWithPose
  bbox : BoundingBox2D
  id : String
  deriving DecidableEq

/-- Message `vision_msgs/Detection2DArray`. -/
structure Detection2DArray where
  header : Header
  detections : List Detection2D
  deriving DecidableEq

/-- Message `geometry_msgs/Vector3`. -/
structure Vector3 where
  x : Fp
  y : Fp
  z : Fp
  deriving DecidableEq

/-- Message `vision_msgs/BoundingBox3D`. -/
structure BoundingBox3D where
  center : Pose
  size : Vector3
  deriving DecidableEq

/-- Message `vision_msgs/Detection3D`. -/
structure Detection3D where
  header : Header
  results : List ObjectHypothesisWithPose
  bbox : BoundingBox3D
  id : String
  deriving DecidableEq

/-- Message `vision_msgs/Detection3DArray`. -/
structure Detection3DArray where
  header : Header
  detections : List Detection3D
  deriving DecidableEq

/-- Message `sensor_msgs/Image`.  The sample buffer is kept row-major in the two readings the
node uses: `data16` is the buffer read as `uint16_t` samples (the reading used for "16UC1") and
`data32` the buffer read as `float` samples (the reading used for "32FC1"). -/
structure Image where
  header : Header
  height : Nat
  width : Nat
  encoding : String
  data16 : List Nat
  data32 : List Fp
  deriving DecidableEq

/-- Message `sensor_msgs/CameraInfo`. -/
structure CameraInfo where
  header : Header
  height : Nat
  width : Nat
  d : List Fp
  k : List Fp
  r : List Fp
  p : List Fp
  deriving DecidableEq

/-- The header of a default-constructed message. -/
def Header.init : Header := { stamp := { sec := 0, nanosec := 0 }, frame_id := "" }

/-- The quaternion of a default-constructed message, `(0, 0, 0, 1)`. -/
def Quaternion.init : Quaternion :=
  { x := Fp.fin 0, y := Fp.fin 0, z := Fp.fin 0, w := Fp.fin 1 }

/-! ## OpenCV points and the depth buffer -/

/-- The type `cv::Point2d`. -/
structure Point2d where
  x : Fp
  y : Fp
  deriving DecidableEq

/-- The type `cv::Point` (integer pixel). -/
structure Point2i where
  x : Int
  y : Int
  deriving DecidableEq

/-- The type `cv::Point3d`. -/
structure Point3d where
  x : Fp
  y : Fp
  z : Fp
  deriving DecidableEq

/-- The operator `cv::Point3d / double`: component-wise quotient. -/
def Point3d.div (a : Point3d) (b : Fp) : Point3d :=
  { x := a.x.div b, y := a.y.div b, z := a.z.div b }

/-- The operator `cv::Point3d * float`: component-wise product. -/
def Point3d.mul (a : Point3d) (b : Fp) : Point3d :=
  { x := a.x.mul b, y := a.y.mul b, z := a.z.mul b }

/-- Rounding of an exact value to the nearest integer, ties to the even one.  With `q = n / d`
in lowest terms (`d > 0`), `n / d` below is the floor and `n % d` the remainder in `[0, d)`. -/
def roundHalfEven (q : ℚ) : Int :=
  let d : Int := (q.den : Int)
  let f : Int := q.num / d
  let r : Int := q.num % d
  if 2 * r < d then f
  else if d < 2 * r then f + 1
  else if f % 2 = 0 then f
  else f + 1

/-- The constant `INT_MIN`. -/
def INT_MIN : Int := -2147483648

/-- The constant `INT_MAX`. -/
def INT_MAX : Int := 2147483647

/-- Modelled from the spec: `cvRound` is OpenCV's, not under src; the spec reads the sample "at
the (rounded) pixel position".  Round to nearest, ties to even; a value that is not a number or
does not fit an `int` gives `INT_MIN` (the result of the conversion instruction). -/
def cvRound : Fp → Int
  | Fp.fin q =>
    let n := roundHalfEven q
    if INT_MIN ≤ n ∧ n ≤ INT_MAX then n else INT_MIN
  | _ => INT_MIN

/-- The conversion `cv::Point2d → cv::Point` that `cv::Mat::at` applies to its argument:
each coordinate goes through `saturate_cast<int>`, which is `cvRound`. -/
def Point2d.toPoint2i (p : Point2d) : Point2i := { x := cvRound p.x, y := cvRound p.y }

/-- Whether pixel `pt` lies inside a frame of `rows` rows and `cols` columns. -/
def inFrame (rows cols : Nat) (pt : Point2i) : Bool :=
  decide (0 ≤ pt.x) && decide (pt.x < (cols : Int)) &&
    decide (0 ≤ pt.y) && decide (pt.y < (rows : Int))

/-- The element offset `cv::Mat::at<T>(cv::Point pt)` computes in a continuous matrix of `cols`
columns: `pt.y` rows down, `pt.x` elements along. -/
def matIndex (cols : Nat) (pt : Point2i) : Int := pt.y * (cols : Int) + pt.x

/-- Whether element offset `i` lies inside a buffer of `length` elements. -/
def inBuffer (length : Nat) (i : Int) : Bool := decide (0 ≤ i) && decide (i < (length : Int))

/-- The accessor `cv::Mat::at<T>(cv::Point pt)` on a row-major buffer.  It performs no bounds
check: it reads the element at offset `matIndex cols pt`, which is a sample of the buffer when
the offset lies inside it (for a pixel outside the frame, a sample of another row) and
otherwise whatever `outside` holds at that offset. -/
def matAt {α : Type} (outside : Int → α) (cols : Nat) (data : List α) (pt : Point2i) : α :=
  if inBuffer data.length (matIndex cols pt) then
    (data[(matIndex cols pt).toNat]?).getD (outside (matIndex cols pt))
  else outside (matIndex cols pt)

/-- What surrounds the sample buffer of the decoded frame: the value an unchecked read finds at
an element offset outside the buffer, as a `uint16_t` and as a `float`. -/
structure Memory where
  outside16 : Int → Nat
  outside32 : Int → Fp

/-- Modelled from the spec: `depth_image_proc::DepthTraits<uint16_t>::toMeters` is not under
src; the spec describes it as "the sensor's fixed linear meters-per-unit scale".  The scale is
one millimetre per unit: `depth * 0.001f`. -/
def toMeters (depth : Nat) : Fp := Fp.fin ((depth : ℚ) * (1 / 1000))

/-! ## The node -/

/-- The class `image_geometry::PinholeCameraModel` after `fromCameraInfo`: it holds the
calibration it was built from. -/
structure PinholeCameraModel where
  cam_info : CameraInfo
  deriving DecidableEq

/-- The method `PinholeCameraModel::fromCameraInfo` on a fresh model. -/
def PinholeCameraModel.fromCameraInfo (msg : CameraInfo) : PinholeCameraModel :=
  { cam_info := msg }

/-- The ray `PinholeCameraModel::projectPixelTo3dRay` returns.  The library computes
`((u - cx - Tx) / fx, (v - cy - Ty) / fy, 1.0)`: the first two components come out of a
floating-point division, the depth-axis component is a number (the constant 1.0 in the library,
any number here). -/
structure Ray where
  x : Fp
  y : Fp
  z : ℚ
  deriving DecidableEq

/-- The ray as the `cv::Point3d` the node receives. -/
def Ray.toPoint3d (r : Ray) : Point3d := { x := r.x, y := r.y, z := Fp.fin r.z }

/-- The two methods of `image_geometry::PinholeCameraModel` the node calls; their numerics
belong to the external camera-model library. -/
structure CameraGeometry where
  rectifyPoint : PinholeCameraModel → Point2d → Point2d
  projectPixelTo3dRay : PinholeCameraModel → Point2d → Ray

/-- The members of `DetectionTo3DfromDepthNode` the callbacks read or write: the camera model
pointer (`none` is `nullptr`) and whether `info_sub_` still holds a subscription. -/
structure Node where
  model_ : Option PinholeCameraModel
  info_sub_ : Bool
  deriving DecidableEq

/-- The node as the constructor leaves it: no model, camera-info subscription created. -/
def Node.init : Node := { model_ := none, info_sub_ := true }

/-- Severity of a log call. -/
inductive Level where
  | info
  | warn
  | error
  deriving DecidableEq

/-- An observable action of a callback. -/
inductive Effect where
  | log (level : Level) (text : String)
  | publish (msg : Detection3DArray)
  deriving DecidableEq

deriving instance DecidableEq for Except

/-- The accesses of the C++ code that stop the callback: the write to element 0 of an empty
`std::vector` and the read of a local that was never assigned. -/
inductive Fault where
  | vectorOutOfRange
  | uninitializedRead
  deriving DecidableEq

/-- The method `DetectionTo3DfromDepthNode::callback_info`. -/
def callback_info (node : Node) (msg : CameraInfo) : Node × List Effect :=
  ({ node with model_ := some (PinholeCameraModel.fromCameraInfo msg), info_sub_ := false },
    [Effect.log Level.info "Camera info received"])

/-- The three arms of the encoding test at lines 95-104 of `callback_sync`. -/
inductive Branch where
  | u16
  | f32
  | unrecognized
  deriving DecidableEq

/-- Which arm of the encoding test (lines 95, 99, 102) runs for an encoding. -/
def sampleBranch (encoding : String) : Branch :=
  if encoding = "16UC1" then Branch.u16
  else if encoding = "32FC1" then Branch.f32
  else Branch.unrecognized

/-- Lines 93-104 of `callback_sync`: the declaration of `depth` and the encoding branches.
The result is the value of `depth` afterwards (`none`: never assigned) and the log calls.
`cv::Mat::at` receives the `cv::Point2d` of the bbox center, converted to a `cv::Point`. -/
def sampleDepth (M : Memory) (image_msg : Image) (detection : Detection2D) :
    Option Fp × List Effect :=
  match sampleBranch image_msg.encoding with
  | Branch.u16 =>
    (some (toMeters (matAt M.outside16 image_msg.width image_msg.data16
        (Point2d.toPoint2i { x := detection.bbox.center.position.x
                             y := detection.bbox.center.position.y }))), [])
  | Branch.f32 =>
    (some (matAt M.outside32 image_msg.width image_msg.data32
        (Point2d.toPoint2i { x := detection.bbox.center.position.x
                             y := detection.bbox.center.position.y })), [])
  | Branch.unrecognized => (none, [Effect.log Level.error "Format not recognized"])

/-- Lines 110-116 of `callback_sync`: the back-projected point for a detection and a depth. -/
def backProject (G : CameraGeometry) (model : PinholeCameraModel) (detection : Detection2D)
    (depth : Fp) : Point3d :=
  let ray : Point3d :=
    (G.projectPixelTo3dRay model
      (G.rectifyPoint model
        { x := detection.bbox.center.position.x
          y := detection.bbox.center.position.y })).toPoint3d
  let ray := ray.div ray.z
  ray.mul depth

/-- Lines 118-129 of `callback_sync`: the writes into `detection_3d_msg`, whose `results` were
copied from the detection at line 91.  Writing `results[0]` of an empty vector is a fault. -/
def fillDetection3D (detection : Detection2D) (point : Point3d) : Except Fault Detection3D :=
  match detection.results with
  | [] => Except.error Fault.vectorOutOfRange
  | r0 :: rest =>
    Except.ok
      { header := Header.init
        results :=
          { r0 with
            pose := { r0.pose with
              pose := { r0.pose.pose with
                position := { x := point.x, y := point.y, z := point.z } } } } :: rest
        bbox :=
          { center :=
              { position :=
                  { x := detection.bbox.center.position.x
                    y := detection.bbox.center.position.y
                    z := point.z }
                orientation := Quaternion.init }
            size := { x := detection.bbox.size_x, y := detection.bbox.size_y, z := Fp.fin 0 } }
        id := detection.id }

/-- The body of the loop of `callback_sync` (lines 90-131) for one detection: the log calls
made and the `Detection3D` pushed, if any. -/
def processDetection (G : CameraGeometry) (M : Memory) (model : PinholeCameraModel)
    (image_msg : Image) (detection : Detection2D) :
    Except Fault (List Effect × Option Detection3D) :=
  match sampleDepth M image_msg detection with
  | (none, _) => Except.error Fault.uninitializedRead
  | (some depth, logs) =>
    if depth.isnan then Except.ok (logs, none)
    else
      match fillDetection3D detection (backProject G model detection depth) with
      | Except.error f => Except.error f
      | Except.ok detection_3d_msg => Except.ok (logs, some detection_3d_msg)

/-- The loop of `callback_sync` (lines 89-132) from a given state of the log and of
`detections_3d_msg.detections`; `push_back` appends at the end. -/
def detectionLoop (G : CameraGeometry) (M : Memory) (model : PinholeCameraModel)
    (image_msg : Image) :
    List Detection2D → List Effect × List Detection3D →
      Except Fault (List Effect × List Detection3D)
  | [], acc => Except.ok acc
  | detection :: rest, (logs, detections) =>
    match processDetection G M model image_msg detection with
    | Except.error f => Except.error f
    | Except.ok (l, none) => detectionLoop G M model image_msg rest (logs ++ l, detections)
    | Except.ok (l, some d3) =>
      detectionLoop G M model image_msg rest (logs ++ l, detections ++ [d3])

/-- The method `DetectionTo3DfromDepthNode::callback_sync`; `subscription_count` is what
`detection_pub_->get_subscription_count()` returns during the call. -/
def callback_sync (G : CameraGeometry) (M : Memory) (node : Node) (image_msg : Image)
    (detection_msg : Detection2DArray) (subscription_count : Nat) :
    Node × Except Fault (List Effect) :=
  match node.model_ with
  | none => (node, Except.ok [Effect.log Level.warn "Camera Model not yet available"])
  | some model =>
    if image_msg.encoding ≠ "16UC1" ∧ image_msg.encoding ≠ "32FC1" then
      (node, Except.ok [Effect.log Level.error "The image type has not depth info"])
    else if subscription_count > 0 then
      match detectionLoop G M model image_msg detection_msg.detections ([], []) with
      | Except.error f => (node, Except.error f)
      | Except.ok (logs, detections) =>
        if detections.isEmpty then (node, Except.ok logs)
        else
          (node, Except.ok (logs ++
            [Effect.publish { header := detection_msg.header, detections := detections }]))
    else (node, Except.ok [])

/-- The effect of the loop of `callback_sync` on an empty log and an empty batch, by recursion
on the detections: the log calls of the iterations, concatenated, and the `Detection3D`s pushed,
in order. -/
def loopResult (G : CameraGeometry) (M : Memory) (model : PinholeCameraModel)
    (image_msg : Image) : List Detection2D → Except Fault (List Effect × List Detection3D)
  | [] => Except.ok ([], [])
  | detection :: rest =>
    match processDetection G M model image_msg detection with
    | Except.error f => Except.error f
    | Except.ok (l, o) =>
      match loopResult G M model image_msg rest with
      | Except.error f => Except.error f
      | Except.ok (ls, ds) => Except.ok (l ++ ls, o.toList ++ ds)

/-! ## Vocabulary of the properties -/

/-- The guards in front of the loop of `callback_sync` all let the call through: the model is
set (line 73), the encoding passes the test of line 78, and there is a subscriber (line 83). -/
def reachesLoop (node : Node) (image_msg : Image) (subscription_count : Nat) : Bool :=
  node.model_.isSome &&
    !(decide (image_msg.encoding ≠ "16UC1") && decide (image_msg.encoding ≠ "32FC1")) &&
    decide (subscription_count > 0)

/-- The encoding is one of the two the node supports. -/
def supported (encoding : String) : Bool :=
  decide (encoding = "16UC1") || decide (encoding = "32FC1")

/-- The depth sampled for a detection: the value of `depth` after lines 93-104, when the
sampling assigned it. -/
def depthOf (M : Memory) (image_msg : Image) (detection : Detection2D) : Option Fp :=
  (sampleDepth M image_msg detection).1

/-- The sampled depth of a detection is a finite number. -/
def finiteDepth (M : Memory) (image_msg : Image) (detection : Detection2D) : Bool :=
  match depthOf M image_msg detection with
  | some depth => depth.isfinite
  | none => false

/-- The sampled depth of a detection is not NaN. -/
def numberDepth (M : Memory) (image_msg : Image) (detection : Detection2D) : Bool :=
  match depthOf M image_msg detection with
  | some depth => !depth.isnan
  | none => false

/-- The detection's rounded bbox-center pixel lies inside the frame. -/
def centerInFrame (image_msg : Image) (detection : Detection2D) : Bool :=
  inFrame image_msg.height image_msg.width
    { x := cvRound detection.bbox.center.position.x
      y := cvRound detection.bbox.center.position.y }

/-- The `Detection3D` the loop body pushes for a detection, if it pushes one. -/
def produced (G : CameraGeometry) (M : Memory) (model : PinholeCameraModel)
    (image_msg : Image) (detection : Detection2D) : Option Detection3D :=
  match processDetection G M model image_msg detection with
  | Except.ok (_, some d3) => some d3
  | _ => none

/-- The batches published by a run of a callback. -/
def published : Except Fault (List Effect) → List Detection3DArray
  | Except.ok effects =>
    effects.filterMap fun e =>
      match e with
      | Effect.publish msg => some msg
      | _ => none
  | Except.error _ => []

/-- An event delivered to the node: a calibration message for `callback_info`, or a matched
pair for `callback_sync` together with the subscriber count of the output at that time. -/
inductive Event where
  | info (msg : CameraInfo)
  | sync (image_msg : Image) (detection_msg : Detection2DArray) (subscription_count : Nat)

/-- The node after it has handled one event. -/
def step (G : CameraGeometry) (M : Memory) (node : Node) : Event → Node
  | Event.info msg => (callback_info node msg).1
  | Event.sync image_msg detection_msg subscription_count =>
    (callback_sync G M node image_msg detection_msg subscription_count).1

/-- The node after it has handled a sequence of events, oldest first. -/
def run (G : CameraGeometry) (M : Memory) (node : Node) (events : List Event) : Node :=
  events.foldl (step G M) node

/-- The calibration messages among a sequence of events, oldest first. -/
def calibrations (events : List Event) : List CameraInfo :=
  events.filterMap fun e =>
    match e with
    | Event.info msg => some msg
    | Event.sync _ _ _ => none

/-- The `Detection3D`s the loop pushes for a detection batch in the node's current state. -/
def producedBy (G : CameraGeometry) (M : Memory) (node : Node) (image_msg : Image)
    (detection_msg : Detection2DArray) : List Detection3D :=
  match node.model_ with
  | none => []
  | some model => detection_msg.detections.filterMap (produced G M model image_msg)

/-- The decision table of the specification for one cycle, in its words: without a camera
model one not-ready report and no batch; with a model and an unsupported encoding one
unsupported-encoding error report and no batch; with a model and a supported encoding, nothing
at all when the output has no subscriber or no `Detection3D` was produced, and otherwise exactly
one batch carrying the detection batch's header and the produced detections. -/
def decisionTable (model_set encoding_supported : Bool) (subscription_count : Nat)
    (header : Header) (detections_3d : List Detection3D) : List Effect :=
  if model_set = false then [Effect.log Level.warn "Camera Model not yet available"]
  else if encoding_supported = false then
    [Effect.log Level.error "The image type has not depth info"]
  else if subscription_count = 0 ∨ detections_3d = [] then []
  else [Effect.publish { header := header, detections := detections_3d }]

/-! ## Concrete inputs -/

/-- A camera geometry whose rectification exchanges the two pixel coordinates and whose ray
through the rectified pixel `(u, v)` is `(u, v, 2)`. -/
def skewGeometry : CameraGeometry :=
  { rectifyPoint := fun _ p => { x := p.y, y := p.x }
    projectPixelTo3dRay := fun _ p => { x := p.x, y := p.y, z := 2 } }

/-- A camera geometry with the principal point at pixel `(0, 0)` and unit focal lengths:
rectification leaves a pixel in place and the ray through pixel `(u, v)` is `(u, v, 1)`. -/
def unitGeometry : CameraGeometry :=
  { rectifyPoint := fun _ p => p
    projectPixelTo3dRay := fun _ p => { x := p.x, y := p.y, z := 1 } }

/-- Surroundings of the buffer that hold the sample 1 everywhere (`1` as `uint16_t`, `1.0` as
`float`). -/
def onesMemory : Memory := { outside16 := fun _ => 1, outside32 := fun _ => Fp.fin 1 }

/-- A calibration message for a 2 x 2 sensor. -/
def unitInfo : CameraInfo :=
  { header := Header.init, height := 2, width := 2, d := [], k := [], r := [], p := [] }

/-- A second calibration message, differing from `unitInfo` in its frame. -/
def otherInfo : CameraInfo :=
  { header := { stamp := { sec := 7, nanosec := 0 }, frame_id := "camera" }
    height := 2, width := 2, d := [], k := [], r := [], p := [] }

/-- The node after the calibration `unitInfo` has arrived. -/
def readyNode : Node := (callback_info Node.init unitInfo).1

/-- The model built from `unitInfo`, as stored by `readyNode`. -/
def unitModel : PinholeCameraModel := PinholeCameraModel.fromCameraInfo unitInfo

/-- A header that differs from the default one. -/
def stampedHeader : Header := { stamp := { sec := 12, nanosec := 500 }, frame_id := "camera" }

/-- A 2 x 2 "32FC1" frame: row 0 is `2.0, NaN`, row 1 is `+Inf, 3.0`. -/
def frame32 : Image :=
  { header := Header.init, height := 2, width := 2, encoding := "32FC1"
    data16 := [], data32 := [Fp.fin 2, Fp.nan, Fp.posInf, Fp.fin 3] }

/-- A 2 x 2 "16UC1" frame: row 0 is `0, 1500`, row 1 is `2000, 65535`. -/
def frame16 : Image :=
  { header := Header.init, height := 2, width := 2, encoding := "16UC1"
    data16 := [0, 1500, 2000, 65535], data32 := [] }

/-- A result with class "cup", score 1, a pose at `(9, 9, 9)` and a one-entry covariance. -/
def cupResult : ObjectHypothesisWithPose :=
  { hypothesis := { class_id := "cup", score := Fp.fin 1 }
    pose :=
      { pose := { position := { x := Fp.fin 9, y := Fp.fin 9, z := Fp.fin 9 }
                  orientation := Quaternion.init }
        covariance := [Fp.fin 4] } }

/-- A second result, class "mug". -/
def mugResult : ObjectHypothesisWithPose :=
  { hypothesis := { class_id := "mug", score := Fp.fin 0 }
    pose :=
      { pose := { position := { x := Fp.fin 0, y := Fp.fin 0, z := Fp.fin 0 }
                  orientation := Quaternion.init }
        covariance := [] } }

/-- A detection with the given identifier, results and integer bbox-center pixel, of size
`4 x 6`. -/
def detectionAt (id : String) (results : List ObjectHypothesisWithPose) (x y : Int) :
    Detection2D :=
  { header := Header.init
    results := results
    bbox :=
      { center := { position := { x := Fp.fin x, y := Fp.fin y }, theta := Fp.fin 0 }
        size_x := Fp.fin 4
        size_y := Fp.fin 6 }
    id := id }

/-- A detection batch for `frame32`: "a" at pixel `(0, 0)` (depth 2), "n" at `(1, 0)` (NaN),
"i" at `(0, 1)` (+Inf) and "c" at `(1, 1)` (depth 3). -/
def fullBatch : Detection2DArray :=
  { header := stampedHeader
    detections :=
      [detectionAt "a" [cupResult, mugResult] 0 0, detectionAt "n" [cupResult] 1 0,
        detectionAt "i" [cupResult] 0 1, detectionAt "c" [cupResult] 1 1] }

/-- A detection batch for a 2 x 2 frame: "a" at pixel `(0, 0)`, then "b" at pixel `(5, 0)`,
outside the frame and outside the buffer. -/
def mixedBatch : Detection2DArray :=
  { header := stampedHeader
    detections := [detectionAt "a" [cupResult] 0 0, detectionAt "b" [cupResult] 5 0] }

/-- A detection batch for a 2 x 2 frame: "b" at pixel `(5, 0)`, outside the frame and outside
the buffer, then "a" at pixel `(0, 0)`. -/
def outsideFirstBatch : Detection2DArray :=
  { header := stampedHeader
    detections := [detectionAt "b" [cupResult] 5 0, detectionAt "a" [cupResult] 0 0] }

/-- A detection batch: "e" at pixel `(0, 0)` with an empty result set, then "c" at `(1, 1)`. -/
def emptyResultsBatch : Detection2DArray :=
  { header := stampedHeader
    detections := [detectionAt "e" [] 0 0, detectionAt "c" [cupResult] 1 1] }

/-- A detection batch: "c" at pixel `(1, 1)`, then "e" at `(0, 0)` with an empty result set. -/
def emptyResultsLastBatch : Detection2DArray :=
  { header := stampedHeader
    detections := [detectionAt "c" [cupResult] 1 1, detectionAt "e" [] 0 0] }

/-- A detection batch with the single detection "a" at pixel `(0, 0)`. -/
def principalBatch : Detection2DArray :=
  { header := stampedHeader, detections := [detectionAt "a" [cupResult, mugResult] 0 0] }

/-- A detection batch with the single detection "c" at pixel `(1, 1)`. -/
def cornerBatch : Detection2DArray :=
  { header := stampedHeader, detections := [detectionAt "c" [cupResult, mugResult] 1 1] }

/-- A detection batch with the single detection "i" at pixel `(0, 1)`. -/
def infiniteBatch : Detection2DArray :=
  { header := stampedHeader, detections := [detectionAt "i" [cupResult] 0 1] }

/-- The result `cupResult` with its pose position replaced. -/
def cupResultAt (x y z : ℚ) : ObjectHypothesisWithPose :=
  { hypothesis := { class_id := "cup", score := Fp.fin 1 }
    pose :=
      { pose := { position := { x := Fp.fin x, y := Fp.fin y, z := Fp.fin z }
                  orientation := Quaternion.init }
        covariance := [Fp.fin 4] } }

/-- A `Detection3D` with the given identifier and results, bbox center `(u, v, z)` and size
`(4, 6, 0)`. -/
def detection3DAt (id : String) (results : List ObjectHypothesisWithPose) (u v z : ℚ) :
    Detection3D :=
  { header := Header.init
    results := results
    bbox :=
      { center := { position := { x := Fp.fin u, y := Fp.fin v, z := Fp.fin z }
                    orientation := Quaternion.init }
        size := { x := Fp.fin 4, y := Fp.fin 6, z := Fp.fin 0 } }
    id := id }

/-- A detection batch with the single detection "s" at pixel `(1, 0)`. -/
def offAxisBatch : Detection2DArray :=
  { header := stampedHeader, detections := [detectionAt "s" [cupResult, mugResult] 1 0] }

theorem roundHalfEven_intCast (n : Int) : roundHalfEven (n : ℚ) = n := by
  simp [roundHalfEven]

theorem abs_roundHalfEven_sub_le (q : ℚ) : |((roundHalfEven q : Int) : ℚ) - q| ≤ 1 / 2 := by
  have hd : (0 : ℤ) < (q.den : ℤ) := by exact_mod_cast q.den_pos
  have hdq : (0 : ℚ) < (q.den : ℚ) := by exact_mod_cast q.den_pos
  have hdiv : (q.den : ℤ) * (q.num / (q.den : ℤ)) + q.num % (q.den : ℤ) = q.num :=
    Int.ediv_add_emod q.num q.den
  have hr0 : 0 ≤ q.num % (q.den : ℤ) := Int.emod_nonneg _ (ne_of_gt hd)
  have hr1 : q.num % (q.den : ℤ) < (q.den : ℤ) := Int.emod_lt_of_pos _ hd
  have hq : q * (q.den : ℚ) = (q.num : ℚ) := Rat.mul_den_eq_num q
  have hdivq : (q.den : ℚ) * ((q.num / (q.den : ℤ) : ℤ) : ℚ) + ((q.num % (q.den : ℤ) : ℤ) : ℚ) =
      q * (q.den : ℚ) := by
    rw [hq]
    exact_mod_cast hdiv
  have hr0q : (0 : ℚ) ≤ ((q.num % (q.den : ℤ) : ℤ) : ℚ) := by exact_mod_cast hr0
  have hr1q : ((q.num % (q.den : ℤ) : ℤ) : ℚ) < (q.den : ℚ) := by exact_mod_cast hr1
  have key : ∀ x : ℚ, |x * (q.den : ℚ)| ≤ (q.den : ℚ) / 2 → |x| ≤ 1 / 2 := by
    intro x hx
    rw [abs_mul, abs_of_pos hdq] at hx
    have : |x| * (q.den : ℚ) ≤ (1 / 2) * (q.den : ℚ) := by linarith
    exact le_of_mul_le_mul_right this hdq
  apply key
  unfold roundHalfEven
  simp only
  split_ifs with h1 h2 h3
  · have h1q : 2 * ((q.num % (q.den : ℤ) : ℤ) : ℚ) < (q.den : ℚ) := by exact_mod_cast h1
    rw [abs_le]
    constructor <;> nlinarith
  · have h2q : (q.den : ℚ) < 2 * ((q.num % (q.den : ℤ) : ℤ) : ℚ) := by exact_mod_cast h2
    rw [abs_le]
    push_cast
    constructor <;> nlinarith
  · have h1q : ¬ 2 * ((q.num % (q.den : ℤ) : ℤ) : ℚ) < (q.den : ℚ) := by exact_mod_cast h1
    have h2q : ¬ (q.den : ℚ) < 2 * ((q.num % (q.den : ℤ) : ℤ) : ℚ) := by exact_mod_cast h2
    rw [abs_le]
    constructor <;> nlinarith
  · have h1q : ¬ 2 * ((q.num % (q.den : ℤ) : ℤ) : ℚ) < (q.den : ℚ) := by exact_mod_cast h1
    have h2q : ¬ (q.den : ℚ) < 2 * ((q.num % (q.den : ℤ) : ℤ) : ℚ) := by exact_mod_cast h2
    rw [abs_le]
    push_cast
    constructor <;> nlinarith

/-! ## The unchecked accessor -/

theorem matIndex_inBuffer {rows cols : Nat} {pt : Point2i} (hin : inFrame rows cols pt = true) :
    inBuffer (rows * cols) (matIndex cols pt) = true := by
  unfold inFrame at hin
  simp only [Bool.and_eq_true, decide_eq_true_eq] at hin
  obtain ⟨⟨⟨hx0, hx1⟩, hy0⟩, hy1⟩ := hin
  unfold inBuffer matIndex
  simp only [Bool.and_eq_true, decide_eq_true_eq]
  have hc : (0 : Int) ≤ (cols : Int) := Int.ofNat_nonneg cols
  constructor
  · have := mul_nonneg hy0 hc
    omega
  · have h1 : pt.y + 1 ≤ (rows : Int) := by omega
    have h2 : (pt.y + 1) * (cols : Int) ≤ (rows : Int) * (cols : Int) :=
      mul_le_mul_of_nonneg_right h1 hc
    push_cast
    nlinarith

theorem matAt_of_inBuffer {α : Type} (outside : Int → α) (cols : Nat) (data : List α)
    (pt : Point2i) (h : inBuffer data.length (matIndex cols pt) = true) :
    data[(matIndex cols pt).toNat]? = some (matAt outside cols data pt) := by
  unfold matAt
  rw [if_pos h]
  unfold inBuffer at h
  simp only [Bool.and_eq_true, decide_eq_true_eq] at h
  have hlt : (matIndex cols pt).toNat < data.length := by omega
  rw [List.getElem?_eq_getElem hlt]
  rfl

theorem matAt_of_not_inBuffer {α : Type} (outside : Int → α) (cols : Nat) (data : List α)
    (pt : Point2i) (h : inBuffer data.length (matIndex cols pt) = false) :
    matAt outside cols data pt = outside (matIndex cols pt) := by
  unfold matAt
  simp [h]

/-! ## The loop body -/

theorem sampleBranch_of_supported {encoding : String} (h : supported encoding = true) :
    sampleBranch encoding = Branch.u16 ∨ sampleBranch encoding = Branch.f32 := by
  unfold supported at h
  unfold sampleBranch
  by_cases h16 : encoding = "16UC1"
  · simp [h16]
  · by_cases h32 : encoding = "32FC1"
    · simp [h32]
    · simp [h16, h32] at h

theorem sampleDepth_of_supported (M : Memory) {image_msg : Image}
    (h : supported image_msg.encoding = true) (detection : Detection2D) :
    ∃ depth, sampleDepth M image_msg detection = (some depth, []) := by
  unfold sampleDepth
  rcases sampleBranch_of_supported h with hb | hb
  · rw [hb]
    exact ⟨_, rfl⟩
  · rw [hb]
    exact ⟨_, rfl⟩

theorem processDetection_of_nan {G : CameraGeometry} {M : Memory} {model : PinholeCameraModel}
    {image_msg : Image} {detection : Detection2D} {depth : Fp} {logs : List Effect}
    (hs : sampleDepth M image_msg detection = (some depth, logs))
    (hnan : depth.isnan = true) :
    processDetection G M model image_msg detection = Except.ok (logs, none) := by
  unfold processDetection
  rw [hs]
  simp [hnan]

theorem processDetection_of_number {G : CameraGeometry} {M : Memory}
    {model : PinholeCameraModel} {image_msg : Image} {detection : Detection2D} {depth : Fp}
    {logs : List Effect} (hs : sampleDepth M image_msg detection = (some depth, logs))
    (hnum : depth.isnan = false) :
    processDetection G M model image_msg detection =
      match fillDetection3D detection (backProject G model detection depth) with
      | Except.error f => Except.error f
      | Except.ok detection_3d_msg => Except.ok (logs, some detection_3d_msg) := by
  unfold processDetection
  rw [hs]
  simp [hnum]

theorem processDetection_some {G : CameraGeometry} {M : Memory} {model : PinholeCameraModel}
    {image_msg : Image} {detection : Detection2D} {d3 : Detection3D} {logs : List Effect}
    (h : processDetection G M model image_msg detection = Except.ok (logs, some d3)) :
    ∃ depth, sampleDepth M image_msg detection = (some depth, logs) ∧
      depth.isnan = false ∧
      fillDetection3D detection (backProject G model detection depth) = Except.ok d3 := by
  unfold processDetection at h
  split at h
  · cases h
  · rename_i depth l hs
    cases hnan : depth.isnan with
    | true => simp [hnan] at h
    | false =>
      simp only [hnan, Bool.false_eq_true, if_false] at h
      split at h
      · cases h
      · rename_i d hf
        simp only [Except.ok.injEq, Prod.mk.injEq, Option.some.injEq] at h
        obtain ⟨hl, hd⟩ := h
        subst hl
        subst hd
        exact ⟨depth, hs, hnan, hf⟩

theorem processDetection_logs {G : CameraGeometry} {M : Memory} {model : PinholeCameraModel}
    {image_msg : Image} (henc : supported image_msg.encoding = true) {detection : Detection2D}
    {logs : List Effect} {o : Option Detection3D}
    (h : processDetection G M model image_msg detection = Except.ok (logs, o)) : logs = [] := by
  obtain ⟨depth, hs⟩ := sampleDepth_of_supported M henc detection
  cases hnan : depth.isnan with
  | true =>
    rw [processDetection_of_nan hs hnan] at h
    simp only [Except.ok.injEq, Prod.mk.injEq] at h
    exact h.1.symm
  | false =>
    rw [processDetection_of_number hs hnan] at h
    split at h
    · cases h
    · simp only [Except.ok.injEq, Prod.mk.injEq] at h
      exact h.1.symm

theorem fillDetection3D_of_results {detection : Detection2D} (point : Point3d)
    (hr : detection.results ≠ []) :
    ∃ d3, fillDetection3D detection point = Except.ok d3 := by
  cases hres : detection.results with
  | nil => exact absurd hres hr
  | cons r0 rest =>
    unfold fillDetection3D
    rw [hres]
    exact ⟨_, rfl⟩

theorem fillDetection3D_ok {detection : Detection2D} {point : Point3d} {d3 : Detection3D}
    (h : fillDetection3D detection point = Except.ok d3) :
    ∃ r0 rest, detection.results = r0 :: rest ∧
      d3 =
        { header := Header.init
          results :=
            { hypothesis := r0.hypothesis
              pose :=
                { pose :=
                    { position := { x := point.x, y := point.y, z := point.z }
                      orientation := r0.pose.pose.orientation }
                  covariance := r0.pose.covariance } } :: rest
          bbox :=
            { center :=
                { position :=
                    { x := detection.bbox.center.position.x
                      y := detection.bbox.center.position.y
                      z := point.z }
                  orientation := Quaternion.init }
              size :=
                { x := detection.bbox.size_x, y := detection.bbox.size_y, z := Fp.fin 0 } }
          id := detection.id } := by
  cases hr : detection.results with
  | nil => simp [fillDetection3D, hr] at h
  | cons r0 rest =>
    simp only [fillDetection3D, hr, Except.ok.injEq] at h
    exact ⟨r0, rest, rfl, h.symm⟩

theorem detectionLoop_eq (G : CameraGeometry) (M : Memory) (model : PinholeCameraModel)
    (image_msg : Image) (ds : List Detection2D) (logs : List Effect)
    (dets : List Detection3D) :
    detectionLoop G M model image_msg ds (logs, dets) =
      match loopResult G M model image_msg ds with
      | Except.error f => Except.error f
      | Except.ok (ls, out) => Except.ok (logs ++ ls, dets ++ out) := by
  induction ds generalizing logs dets with
  | nil => simp [detectionLoop, loopResult]
  | cons d rest ih =>
    unfold detectionLoop loopResult
    cases hp : processDetection G M model image_msg d with
    | error f => rfl
    | ok r =>
      obtain ⟨l, o⟩ := r
      cases o with
      | none =>
        simp only [ih]
        cases loopResult G M model image_msg rest with
        | error f => rfl
        | ok r2 =>
          obtain ⟨ls, out⟩ := r2
          simp [List.append_assoc]
      | some d3 =>
        simp only [ih]
        cases loopResult G M model image_msg rest with
        | error f => rfl
        | ok r2 =>
          obtain ⟨ls, out⟩ := r2
          simp [List.append_assoc]

theorem loopResult_ok {G : CameraGeometry} {M : Memory} {model : PinholeCameraModel}
    {image_msg : Image} (henc : supported image_msg.encoding = true) :
    ∀ {ds : List Detection2D} {ls : List Effect} {out : List Detection3D},
      loopResult G M model image_msg ds = Except.ok (ls, out) →
        ls = [] ∧ out = ds.filterMap (produced G M model image_msg) ∧
          ∀ d ∈ ds, ∃ o, processDetection G M model image_msg d = Except.ok ([], o) := by
  intro ds
  induction ds with
  | nil =>
    intro ls out h
    simp only [loopResult, Except.ok.injEq, Prod.mk.injEq] at h
    simp [h.1.symm, h.2.symm]
  | cons d rest ih =>
    intro ls out h
    unfold loopResult at h
    cases hp : processDetection G M model image_msg d with
    | error f => rw [hp] at h; cases h
    | ok r =>
      obtain ⟨l, o⟩ := r
      have hl : l = [] := processDetection_logs henc hp
      subst hl
      rw [hp] at h
      cases hr : loopResult G M model image_msg rest with
      | error f => rw [hr] at h; cases h
      | ok r2 =>
        obtain ⟨ls2, out2⟩ := r2
        rw [hr] at h
        simp only [Except.ok.injEq, Prod.mk.injEq, List.nil_append] at h
        obtain ⟨h1, h2, h3⟩ := ih hr
        refine ⟨by rw [← h.1, h1], ?_, ?_⟩
        · rw [← h.2, h2]
          cases o with
          | none => simp [List.filterMap_cons, produced, hp]
          | some d3 => simp [List.filterMap_cons, produced, hp]
        · intro x hx
          rcases List.mem_cons.mp hx with hx | hx
          · subst hx
            exact ⟨o, hp⟩
          · exact h3 x hx

theorem loopResult_of_ok {G : CameraGeometry} {M : Memory} {model : PinholeCameraModel}
    {image_msg : Image} :
    ∀ {ds : List Detection2D},
      (∀ d ∈ ds, ∃ o, processDetection G M model image_msg d = Except.ok ([], o)) →
        loopResult G M model image_msg ds =
          Except.ok ([], ds.filterMap (produced G M model image_msg)) := by
  intro ds
  induction ds with
  | nil => intro _; simp [loopResult]
  | cons d rest ih =>
    intro h
    obtain ⟨o, hp⟩ := h d (List.mem_cons_self _ _)
    have hr := ih (fun x hx => h x (List.mem_cons_of_mem _ hx))
    unfold loopResult
    rw [hp, hr]
    cases o with
    | none => simp [List.filterMap_cons, produced, hp]
    | some d3 => simp [List.filterMap_cons, produced, hp]

theorem loopResult_of_fault {G : CameraGeometry} {M : Memory} {model : PinholeCameraModel}
    {image_msg : Image} :
    ∀ {ds : List Detection2D},
      (∃ d ∈ ds, ∃ f, processDetection G M model image_msg d = Except.error f) →
        ∃ f, loopResult G M model image_msg ds = Except.error f := by
  intro ds
  induction ds with
  | nil => intro h; obtain ⟨d, hd, _⟩ := h; cases hd
  | cons d rest ih =>
    intro h
    unfold loopResult
    cases hp : processDetection G M model image_msg d with
    | error f => exact ⟨f, rfl⟩
    | ok r =>
      obtain ⟨l, o⟩ := r
      obtain ⟨x, hx, f, hf⟩ := h
      rcases List.mem_cons.mp hx with hx | hx
      · subst hx
        rw [hp] at hf
        cases hf
      · obtain ⟨f2, hf2⟩ := ih ⟨x, hx, f, hf⟩
        rw [hf2]
        exact ⟨f2, rfl⟩

theorem supported_iff (encoding : String) :
    supported encoding = true ↔ ¬ (encoding ≠ "16UC1" ∧ encoding ≠ "32FC1") := by
  unfold supported
  simp only [Bool.or_eq_true, decide_eq_true_eq]
  tauto

theorem callback_sync_loop {G : CameraGeometry} {M : Memory} {node : Node}
    {model : PinholeCameraModel} {image_msg : Image} (detection_msg : Detection2DArray)
    {subscription_count : Nat} (hmodel : node.model_ = some model)
    (henc : supported image_msg.encoding = true) (hsub : 0 < subscription_count) :
    callback_sync G M node image_msg detection_msg subscription_count =
      (node,
        match loopResult G M model image_msg detection_msg.detections with
        | Except.error f => Except.error f
        | Except.ok (ls, out) =>
          if out.isEmpty then Except.ok ls
          else Except.ok (ls ++ [Effect.publish { header := detection_msg.header,
                                                  detections := out }])) := by
  unfold callback_sync
  rw [hmodel]
  simp only
  rw [if_neg ((supported_iff _).mp henc), if_pos hsub, detectionLoop_eq]
  cases loopResult G M model image_msg detection_msg.detections with
  | error f => rfl
  | ok r =>
    obtain ⟨ls, out⟩ := r
    simp only [List.nil_append]
    split <;> rfl

/-! ## What a published batch holds -/

theorem produced_some {G : CameraGeometry} {M : Memory} {model : PinholeCameraModel}
    {image_msg : Image} {detection : Detection2D} {d3 : Detection3D}
    (h : produced G M model image_msg detection = some d3) :
    ∃ depth, sampleDepth M image_msg detection = (some depth, []) ∧ depth.isnan = false ∧
      fillDetection3D detection (backProject G model detection depth) = Except.ok d3 ∧
      processDetection G M model image_msg detection = Except.ok ([], some d3) := by
  unfold produced at h
  split at h
  · rename_i l d hp
    simp only [Option.some.injEq] at h
    subst h
    obtain ⟨depth, hs, hnan, hf⟩ := processDetection_some hp
    have hl : l = [] := by
      unfold sampleDepth at hs
      split at hs <;> simp only [Prod.mk.injEq] at hs
      · exact hs.2.symm
      · exact hs.2.symm
      · cases hs.1
    subst hl
    exact ⟨depth, hs, hnan, hf, hp⟩
  · cases h

theorem produced_of_processDetection {G : CameraGeometry} {M : Memory}
    {model : PinholeCameraModel} {image_msg : Image} {detection : Detection2D}
    {logs : List Effect} {o : Option Detection3D}
    (h : processDetection G M model image_msg detection = Except.ok (logs, o)) :
    produced G M model image_msg detection = o := by
  unfold produced
  rw [h]
  cases o <;> rfl

theorem published_inv {G : CameraGeometry} {M : Memory} {node : Node} {image_msg : Image}
    {detection_msg : Detection2DArray} {subscription_count : Nat} {batch : Detection3DArray}
    (hb : batch ∈
      published (callback_sync G M node image_msg detection_msg subscription_count).2) :
    ∃ model, node.model_ = some model ∧ supported image_msg.encoding = true ∧
      0 < subscription_count ∧
      (callback_sync G M node image_msg detection_msg subscription_count).2 =
        Except.ok [Effect.publish batch] ∧
      batch.header = detection_msg.header ∧ batch.detections ≠ [] ∧
      batch.detections = detection_msg.detections.filterMap (produced G M model image_msg) := by
  cases hm : node.model_ with
  | none =>
    unfold callback_sync at hb
    rw [hm] at hb
    simp [published] at hb
  | some model =>
    by_cases henc : supported image_msg.encoding = true
    · by_cases hn : 0 < subscription_count
      · rw [callback_sync_loop detection_msg hm henc hn] at hb ⊢
        simp only at hb ⊢
        cases hl : loopResult G M model image_msg detection_msg.detections with
        | error f =>
          rw [hl] at hb
          simp [published] at hb
        | ok r =>
          obtain ⟨ls, out⟩ := r
          obtain ⟨hls, hout, _⟩ := loopResult_ok henc hl
          subst hls
          rw [hl] at hb
          simp only at hb ⊢
          by_cases he : out.isEmpty = true
          · rw [if_pos he] at hb
            simp [published] at hb
          · rw [if_neg he] at hb
            rw [if_neg he]
            simp only [published, List.nil_append, List.filterMap_cons, List.filterMap_nil,
              List.mem_singleton] at hb
            subst hb
            refine ⟨model, rfl, henc, hn, rfl, rfl, ?_, hout⟩
            intro hnil
            apply he
            simp only at hnil
            rw [hnil]
            rfl
      · unfold callback_sync at hb
        rw [hm] at hb
        simp only at hb
        rw [if_neg ((supported_iff _).mp henc), if_neg hn] at hb
        simp [published] at hb
    · unfold callback_sync at hb
      rw [hm] at hb
      simp only at hb
      have hne : image_msg.encoding ≠ "16UC1" ∧ image_msg.encoding ≠ "32FC1" := by
        by_contra hc
        exact henc ((supported_iff _).mpr hc)
      rw [if_pos hne] at hb
      simp [published] at hb

theorem emitted_from_source {G : CameraGeometry} {M : Memory} {node : Node}
    {image_msg : Image} {detection_msg : Detection2DArray} {subscription_count : Nat}
    {batch : Detection3DArray} {d3 : Detection3D}
    (hb : batch ∈
      published (callback_sync G M node image_msg detection_msg subscription_count).2)
    (hd : d3 ∈ batch.detections) :
    ∃ model s depth, node.model_ = some model ∧ s ∈ detection_msg.detections ∧
      processDetection G M model image_msg s = Except.ok ([], some d3) ∧
      sampleDepth M image_msg s = (some depth, []) ∧ depth.isnan = false ∧
      fillDetection3D s (backProject G model s depth) = Except.ok d3 := by
  obtain ⟨model, hm, _, _, _, _, _, hdet⟩ := published_inv hb
  rw [hdet] at hd
  obtain ⟨s, hs, hp⟩ := List.mem_filterMap.mp hd
  obtain ⟨depth, hdep, hnan, hf, hpd⟩ := produced_some hp
  exact ⟨model, s, depth, hm, hs, hpd, hdep, hnan, hf⟩

/-! ## Exact arithmetic of the back-projection -/

theorem Fp.one_mul (d : Fp) : (Fp.fin 1).mul d = d := by
  cases d with
  | nan => rfl
  | posInf => simp [Fp.mul, Fp.inf]
  | negInf => simp [Fp.mul, Fp.inf]
  | fin q => simp [Fp.mul]

theorem Fp.div_self {z : ℚ} (hz : z ≠ 0) : (Fp.fin z).div (Fp.fin z) = Fp.fin 1 := by
  simp [Fp.div, hz]

theorem Fp.div_fin {a z : ℚ} (hz : z ≠ 0) : (Fp.fin a).div (Fp.fin z) = Fp.fin (a / z) := by
  simp [Fp.div, hz]

theorem backProject_eq (G : CameraGeometry) (model : PinholeCameraModel)
    (detection : Detection2D) (depth : Fp) (r : Ray)
    (hr : r = G.projectPixelTo3dRay model
      (G.rectifyPoint model
        { x := detection.bbox.center.position.x, y := detection.bbox.center.position.y }))
    (hz : r.z ≠ 0) :
    backProject G model detection depth =
      { x := (r.x.div (Fp.fin r.z)).mul depth
        y := (r.y.div (Fp.fin r.z)).mul depth
        z := depth } := by
  subst hr
  unfold backProject
  simp only [Point3d.mul, Point3d.div, Ray.toPoint3d]
  rw [Fp.div_self hz, Fp.one_mul]

/-! ## Sampled depths and pushed detections -/

theorem numberDepth_iff (M : Memory) (image_msg : Image) (detection : Detection2D) :
    numberDepth M image_msg detection = true ↔
      ∃ depth, (sampleDepth M image_msg detection).1 = some depth ∧ depth.isnan = false := by
  unfold numberDepth depthOf
  cases (sampleDepth M image_msg detection).1 with
  | none => simp
  | some depth => simp

theorem numberDepth_of_produced {G : CameraGeometry} {M : Memory} {model : PinholeCameraModel}
    {image_msg : Image} {detection : Detection2D} {d3 : Detection3D}
    (h : produced G M model image_msg detection = some d3) :
    numberDepth M image_msg detection = true := by
  obtain ⟨depth, hdep, hnan, _⟩ := produced_some h
  unfold numberDepth depthOf
  rw [hdep]
  simp [hnan]

theorem sampleDepth_of_numberDepth {M : Memory} {image_msg : Image} {detection : Detection2D}
    (hnum : numberDepth M image_msg detection = true) :
    ∃ depth logs, sampleDepth M image_msg detection = (some depth, logs) ∧
      depth.isnan = false := by
  unfold numberDepth depthOf at hnum
  cases hs : sampleDepth M image_msg detection with
  | mk o logs =>
    rw [hs] at hnum
    cases o with
    | none => cases hnum
    | some depth =>
      simp only [Bool.not_eq_true'] at hnum
      exact ⟨depth, logs, rfl, hnum⟩

theorem produced_of_numberDepth {G : CameraGeometry} {M : Memory} {model : PinholeCameraModel}
    {image_msg : Image} {detection : Detection2D}
    (hnum : numberDepth M image_msg detection = true) (hres : detection.results ≠ []) :
    ∃ logs d3, processDetection G M model image_msg detection = Except.ok (logs, some d3) := by
  obtain ⟨depth, logs, hs, hnan⟩ := sampleDepth_of_numberDepth hnum
  obtain ⟨d3, hf⟩ := fillDetection3D_of_results (backProject G model detection depth) hres
  refine ⟨logs, d3, ?_⟩
  rw [processDetection_of_number hs hnan, hf]

theorem processDetection_safe {G : CameraGeometry} {M : Memory} {model : PinholeCameraModel}
    {image_msg : Image} (henc : supported image_msg.encoding = true)
    {detection : Detection2D}
    (hres : numberDepth M image_msg detection = true → detection.results ≠ []) :
    ∃ o, processDetection G M model image_msg detection = Except.ok ([], o) := by
  obtain ⟨depth, hs⟩ := sampleDepth_of_supported M henc detection
  cases hnan : depth.isnan with
  | true => exact ⟨none, processDetection_of_nan hs hnan⟩
  | false =>
    have hnum : numberDepth M image_msg detection = true := by
      unfold numberDepth depthOf
      rw [hs]
      simp [hnan]
    obtain ⟨logs, d3, hp⟩ :
        ∃ logs d3, processDetection G M model image_msg detection =
          Except.ok (logs, some d3) :=
      produced_of_numberDepth hnum (hres hnum)
    have hl := processDetection_logs henc hp
    subst hl
    exact ⟨some d3, hp⟩

theorem forall₂_filter_filterMap {α β : Type} (f : α → Option β) (p : α → Bool) :
    ∀ l : List α, (∀ a ∈ l, (f a).isSome = p a) →
      List.Forall₂ (fun a b => f a = some b) (l.filter p) (l.filterMap f) := by
  intro l
  induction l with
  | nil => intro _; exact List.Forall₂.nil
  | cons a l ih =>
    intro h
    have hl := ih (fun x hx => h x (List.mem_cons_of_mem _ hx))
    have ha := h a (List.mem_cons_self _ _)
    cases hfa : f a with
    | none =>
      rw [hfa] at ha
      have hpa : p a = false := by simpa using ha.symm
      rw [List.filter_cons_of_neg (by simp [hpa]), List.filterMap_cons_none hfa]
      exact hl
    | some b =>
      rw [hfa] at ha
      have hpa : p a = true := by simpa using ha.symm
      rw [List.filter_cons_of_pos hpa, List.filterMap_cons_some hfa]
      exact List.Forall₂.cons hfa hl

theorem published_decisionTable (model_set encoding_supported : Bool)
    (subscription_count : Nat) (header : Header) (detections_3d : List Detection3D) :
    published (Except.ok (decisionTable model_set encoding_supported subscription_count header
        detections_3d)) =
      if model_set = true ∧ encoding_supported = true ∧ 0 < subscription_count ∧
          detections_3d ≠ [] then
        [{ header := header, detections := detections_3d }]
      else [] := by
  unfold decisionTable published
  cases model_set <;> cases encoding_supported <;> simp
  by_cases h : subscription_count = 0 ∨ detections_3d = []
  · rw [if_pos h]
    rcases h with h | h
    · simp [h]
    · simp [h]
  · rw [if_neg h]
    push_neg at h
    simp [h.2, Nat.pos_of_ne_zero h.1]

/-! ## Cycles that leave the guards early, and cycles that fault -/

theorem callback_sync_of_not_reachesLoop {G : CameraGeometry} {M : Memory} {node : Node}
    {image_msg : Image} {subscription_count : Nat}
    (h : reachesLoop node image_msg subscription_count = false)
    (detection_msg other : Detection2DArray) :
    (callback_sync G M node image_msg other subscription_count).2 =
      (callback_sync G M node image_msg detection_msg subscription_count).2 := by
  unfold callback_sync
  cases hm : node.model_ with
  | none => rfl
  | some model =>
    simp only
    by_cases hne : image_msg.encoding ≠ "16UC1" ∧ image_msg.encoding ≠ "32FC1"
    · rw [if_pos hne, if_pos hne]
    · rw [if_neg hne, if_neg hne]
      by_cases hn : subscription_count > 0
      · exfalso
        unfold reachesLoop at h
        have h16 : image_msg.encoding = "16UC1" ∨ image_msg.encoding = "32FC1" := by tauto
        rcases h16 with h16 | h16 <;> simp [hm, h16, hn] at h
      · rw [if_neg hn, if_neg hn]

theorem callback_sync_of_empty_results {G : CameraGeometry} {M : Memory} {node : Node}
    {model : PinholeCameraModel} {image_msg : Image} (detection_msg : Detection2DArray)
    {subscription_count : Nat} (hmodel : node.model_ = some model)
    (henc : supported image_msg.encoding = true) (hsub : 0 < subscription_count)
    {d : Detection2D} (hd : d ∈ detection_msg.detections)
    (hnum : numberDepth M image_msg d = true) (hres : d.results = []) :
    ∃ f, (callback_sync G M node image_msg detection_msg subscription_count).2 =
      Except.error f := by
  have hp : processDetection G M model image_msg d = Except.error Fault.vectorOutOfRange := by
    obtain ⟨depth, logs, hs, hnan⟩ := sampleDepth_of_numberDepth hnum
    rw [processDetection_of_number hs hnan]
    simp [fillDetection3D, hres]
  obtain ⟨f, hf⟩ := loopResult_of_fault ⟨d, hd, _, hp⟩
  refine ⟨f, ?_⟩
  rw [callback_sync_loop detection_msg hmodel henc hsub, hf]

theorem callback_sync_table {G : CameraGeometry} {M : Memory} {node : Node}
    {image_msg : Image} {detection_msg : Detection2DArray} {subscription_count : Nat}
    (hres : reachesLoop node image_msg subscription_count = true →
      ∀ d ∈ detection_msg.detections,
        numberDepth M image_msg d = true → d.results ≠ []) :
    (callback_sync G M node image_msg detection_msg subscription_count).2 =
      Except.ok (decisionTable node.model_.isSome (supported image_msg.encoding)
        subscription_count detection_msg.header
        (producedBy G M node image_msg detection_msg)) := by
  cases hm : node.model_ with
  | none => simp [callback_sync, hm, decisionTable]
  | some model =>
    cases henc : supported image_msg.encoding with
    | false =>
      have hne : image_msg.encoding ≠ "16UC1" ∧ image_msg.encoding ≠ "32FC1" := by
        by_contra hc
        rw [(supported_iff _).mpr hc] at henc
        cases henc
      unfold callback_sync
      rw [hm]
      simp only
      rw [if_pos hne]
      simp [decisionTable]
    | true =>
      by_cases hn : 0 < subscription_count
      · have hreach : reachesLoop node image_msg subscription_count = true := by
          unfold reachesLoop
          have := (supported_iff _).mp henc
          simp only [hm, Option.isSome_some, Bool.true_and, Bool.and_eq_true,
            Bool.not_eq_true', Bool.and_eq_false_iff, decide_eq_false_iff_not,
            decide_eq_true_eq]
          exact ⟨by tauto, hn⟩
        have hd := hres hreach
        have hok : ∀ d ∈ detection_msg.detections,
            ∃ o, processDetection G M model image_msg d = Except.ok ([], o) :=
          fun d hmem => processDetection_safe henc (hd d hmem)
        rw [callback_sync_loop detection_msg hm henc hn, loopResult_of_ok hok]
        simp only [List.nil_append, producedBy, hm, decisionTable, Option.isSome_some]
        have hn0 : subscription_count ≠ 0 := Nat.pos_iff_ne_zero.mp hn
        by_cases he : detection_msg.detections.filterMap (produced G M model image_msg) = []
        · simp [he]
        · simp [he, hn0]
      · have hn0 : subscription_count = 0 := by omega
        unfold callback_sync
        rw [hm]
        simp only
        rw [if_neg ((supported_iff _).mp henc), if_neg hn]
        simp [decisionTable, hn0]

/-! ## The stored camera model (C9) -/

theorem callback_sync_node (G : CameraGeometry) (M : Memory) (node : Node) (image_msg : Image)
    (detection_msg : Detection2DArray) (subscription_count : Nat) :
    (callback_sync G M node image_msg detection_msg subscription_count).1 = node := by
  unfold callback_sync
  split
  · rfl
  · split
    · rfl
    · split
      · split
        · rfl
        · split <;> rfl
      · rfl

theorem run_model (G : CameraGeometry) (M : Memory) (events : List Event) :
    ∀ node : Node,
      (run G M node events).model_ =
        match (calibrations events).getLast? with
        | some msg => some (PinholeCameraModel.fromCameraInfo msg)
        | none => node.model_ := by
  induction events with
  | nil => intro node; simp [run, calibrations]
  | cons e rest ih =>
    intro node
    have hrun : run G M node (e :: rest) = run G M (step G M node e) rest := by
      simp [run]
    rw [hrun, ih]
    cases e with
    | info msg =>
      have hc : calibrations (Event.info msg :: rest) = msg :: calibrations rest := by
        simp [calibrations]
      rw [hc]
      cases hl : (calibrations rest).getLast? with
      | none =>
        have hnil : calibrations rest = [] := List.getLast?_eq_none_iff.mp hl
        simp [hnil, step, callback_info]
      | some last =>
        have hne : calibrations rest ≠ [] := by
          intro hnil
          rw [hnil] at hl
          simp at hl
        obtain ⟨c, cs, hcs⟩ := List.exists_cons_of_ne_nil hne
        rw [hcs] at hl
        rw [hcs, List.getLast?_cons_cons, hl]
    | sync image_msg detection_msg subscription_count =>
      have hc : calibrations (Event.sync image_msg detection_msg subscription_count :: rest) =
          calibrations rest := by
        simp [calibrations]
      rw [hc]
      simp only [step, callback_sync_node]

/-- C9: over every finite sequence of calibration and matched-pair events handled from the
freshly constructed node, the stored camera model is absent when the sequence holds no
calibration event and is otherwise exactly the model built from the most recent calibration
event; `callback_sync` returns the node unchanged; and the model of the node after any longer
sequence is set whenever it was set before (the node stays ready). -/
theorem stored_model_is_last_calibration (G : CameraGeometry) (M : Memory)
    (events : List Event) :
    (run G M Node.init events).model_ =
        (calibrations events).getLast?.map PinholeCameraModel.fromCameraInfo ∧
      ((calibrations events = [] ↔ (run G M Node.init events).model_ = none)) ∧
      (∀ (node : Node) (image_msg : Image) (detection_msg : Detection2DArray)
          (subscription_count : Nat),
        (callback_sync G M node image_msg detection_msg subscription_count).1 = node) ∧
      (∀ more : List Event,
        (run G M Node.init (events ++ more)).model_.isSome =
          ((run G M Node.init events).model_.isSome || !(calibrations more).isEmpty)) := by
  have h1 : (run G M Node.init events).model_ =
      (calibrations events).getLast?.map PinholeCameraModel.fromCameraInfo := by
    rw [run_model]
    cases (calibrations events).getLast? <;> simp [Node.init]
  refine ⟨h1, ?_, callback_sync_node G M, ?_⟩
  · rw [h1]
    constructor
    · intro h
      simp [h]
    · intro h
      cases hl : (calibrations events).getLast? with
      | none => exact List.getLast?_eq_none_iff.mp hl
      | some msg => simp [hl] at h
  · intro more
    have hsplit :
        run G M Node.init (events ++ more) = run G M (run G M Node.init events) more := by
      simp [run, List.foldl_append]
    rw [hsplit, run_model]
    cases hl : (calibrations more).getLast? with
    | none =>
      have hnil : calibrations more = [] := List.getLast?_eq_none_iff.mp hl
      simp [hnil]
    | some msg =>
      have hne : calibrations more ≠ [] := by
        intro hnil
        rw [hnil] at hl
        simp at hl
      cases hm : calibrations more with
      | nil => exact absurd hm hne
      | cons c cs => simp

/-! ## The encoding guard (C10) -/

/-- C4: every `Detection3D` of a published batch was pushed for a source detection `s` of the
pair with a sampled depth `d`, it has a first result, and with `r` the ray the camera model
returns for the rectified, un-rounded bbox-center pixel
`(s.bbox.center.position.x, s.bbox.center.position.y)`: whenever `r.z` is non-zero, the
normalised ray `r / r.z` has depth-axis component 1 and the position written into the first
result's pose is `(r.x / r.z * d, r.y / r.z * d, d)`; when `r.x`, `r.y` and `d` are numbers
this is the exact value `(a / r.z * q, b / r.z * q, q)`. -/
theorem emitted_position_is_scaled_ray (G : CameraGeometry) (M : Memory) (node : Node)
    (image_msg : Image) (detection_msg : Detection2DArray) (subscription_count : Nat)
    (batch : Detection3DArray) (d3 : Detection3D)
    (hb : batch ∈
      published (callback_sync G M node image_msg detection_msg subscription_count).2)
    (hd : d3 ∈ batch.detections) :
    ∃ model s depth r0 rest, node.model_ = some model ∧ s ∈ detection_msg.detections ∧
      processDetection G M model image_msg s = Except.ok ([], some d3) ∧
      sampleDepth M image_msg s = (some depth, []) ∧
      d3.results = r0 :: rest ∧
      ∀ r : Ray,
        r = G.projectPixelTo3dRay model
            (G.rectifyPoint model
              { x := s.bbox.center.position.x, y := s.bbox.center.position.y }) →
          r.z ≠ 0 →
            (r.toPoint3d.div r.toPoint3d.z).z = Fp.fin 1 ∧
              r0.pose.pose.position =
                { x := (r.x.div (Fp.fin r.z)).mul depth
                  y := (r.y.div (Fp.fin r.z)).mul depth
                  z := depth } ∧
              ∀ a b q : ℚ, r.x = Fp.fin a → r.y = Fp.fin b → depth = Fp.fin q →
                r0.pose.pose.position =
                  { x := Fp.fin (a / r.z * q), y := Fp.fin (b / r.z * q), z := Fp.fin q } := by
  obtain ⟨model, s, depth, hm, hs, hp, hdep, _, hf⟩ := emitted_from_source hb hd
  obtain ⟨r0, rest, _, hd3⟩ := fillDetection3D_ok hf
  refine ⟨model, s, depth, _, rest, hm, hs, hp, hdep, by rw [hd3], ?_⟩
  intro r hr hz
  have hbp := backProject_eq G model s depth r hr hz
  refine ⟨?_, ?_, ?_⟩
  · simp only [Point3d.div, Ray.toPoint3d]
    exact Fp.div_self hz
  · simp only
    rw [hbp]
  · intro a b q ha hb' hq
    simp only
    rw [hbp, ha, hb', hq, Fp.div_fin hz, Fp.div_fin hz]
    simp only [Fp.mul]

/-! ## The fields of an emitted detection (C5) -/

/-- C5: every `Detection3D` of a published batch was pushed for a source detection `s` of the
pair that has a first result `r0` followed by `rest`, and with `p` the back-projected point:
its result set has the length of `s`'s, its first result has the hypothesis (class label and
score), pose orientation and covariance of `r0` and the position `p`, its other results are
`rest`, its bbox center position is `(s.center.x, s.center.y, p.z)`, its bbox size is
`(s.size_x, s.size_y, 0)` and its identifier is `s`'s. -/
theorem emitted_detection_fields (G : CameraGeometry) (M : Memory) (node : Node)
    (image_msg : Image) (detection_msg : Detection2DArray) (subscription_count : Nat)
    (batch : Detection3DArray) (d3 : Detection3D)
    (hb : batch ∈
      published (callback_sync G M node image_msg detection_msg subscription_count).2)
    (hd : d3 ∈ batch.detections) :
    ∃ model s depth r0 rest r0', node.model_ = some model ∧ s ∈ detection_msg.detections ∧
      processDetection G M model image_msg s = Except.ok ([], some d3) ∧
      sampleDepth M image_msg s = (some depth, []) ∧
      s.results = r0 :: rest ∧
      d3.results = r0' :: rest ∧
      d3.results.length = s.results.length ∧
      r0'.hypothesis = r0.hypothesis ∧
      r0'.pose.pose.orientation = r0.pose.pose.orientation ∧
      r0'.pose.covariance = r0.pose.covariance ∧
      r0'.pose.pose.position =
        { x := (backProject G model s depth).x
          y := (backProject G model s depth).y
          z := (backProject G model s depth).z } ∧
      d3.bbox.center.position =
        { x := s.bbox.center.position.x
          y := s.bbox.center.position.y
          z := (backProject G model s depth).z } ∧
      d3.bbox.size = { x := s.bbox.size_x, y := s.bbox.size_y, z := Fp.fin 0 } ∧
      d3.id = s.id := by
  obtain ⟨model, s, depth, hm, hs, hp, hdep, _, hf⟩ := emitted_from_source hb hd
  obtain ⟨r0, rest, hres, hd3⟩ := fillDetection3D_ok hf
  refine ⟨model, s, depth, r0, rest,
    { hypothesis := r0.hypothesis
      pose :=
        { pose :=
            { position :=
                { x := (backProject G model s depth).x
                  y := (backProject G model s depth).y
                  z := (backProject G model s depth).z }
              orientation := r0.pose.pose.orientation }
          covariance := r0.pose.covariance } },
    hm, hs, hp, hdep, hres, by rw [hd3], ?_, rfl, rfl, rfl, rfl, by rw [hd3], by rw [hd3],
    by rw [hd3]⟩
  rw [hd3, hres]
  rfl

/-! ## Depth samples that are not numbers (C3) -/

/-- C3, amended: with a supported encoding every detection has a sampled depth, and one whose
sampled depth is NaN makes the loop body push nothing; every `Detection3D` of every published
batch was pushed for a source detection of the pair whose sampled depth is not NaN (it may be
infinite), and the detections of the batch correspond one to one and in order to the input
detections whose sampled depth is not NaN. -/
theorem nan_depth_is_dropped (G : CameraGeometry) (M : Memory) (node : Node)
    (image_msg : Image) (detection_msg : Detection2DArray) (subscription_count : Nat) :
    (∀ (model : PinholeCameraModel) (s : Detection2D),
      supported image_msg.encoding = true →
        ∃ depth, sampleDepth M image_msg s = (some depth, []) ∧
          (depth.isnan = true →
            processDetection G M model image_msg s = Except.ok ([], none))) ∧
      (∀ batch ∈
          published (callback_sync G M node image_msg detection_msg subscription_count).2,
        ∀ d3 ∈ batch.detections,
          ∃ model s depth, node.model_ = some model ∧ s ∈ detection_msg.detections ∧
            processDetection G M model image_msg s = Except.ok ([], some d3) ∧
            sampleDepth M image_msg s = (some depth, []) ∧
            depth.isnan = false) ∧
      (∀ batch ∈
          published (callback_sync G M node image_msg detection_msg subscription_count).2,
        ∃ model, node.model_ = some model ∧
          List.Forall₂ (fun s d3 => processDetection G M model image_msg s =
              Except.ok ([], some d3))
            (detection_msg.detections.filter (numberDepth M image_msg))
            batch.detections) ∧
      (∀ s : Detection2D,
        numberDepth M image_msg s = true ↔
          ∃ depth, (sampleDepth M image_msg s).1 = some depth ∧ depth.isnan = false) := by
  refine ⟨?_, ?_, ?_, numberDepth_iff M image_msg⟩
  · intro model s henc
    obtain ⟨depth, hs⟩ := sampleDepth_of_supported M henc s
    exact ⟨depth, hs, fun hnan => processDetection_of_nan hs hnan⟩
  · intro batch hb d3 hd
    obtain ⟨model, s, depth, hm, hs, hp, hdep, hnan, _⟩ := emitted_from_source hb hd
    exact ⟨model, s, depth, hm, hs, hp, hdep, hnan⟩
  · intro batch hb
    obtain ⟨model, hm, henc, hn, hout, _, _, hdet⟩ := published_inv hb
    refine ⟨model, hm, ?_⟩
    rw [callback_sync_loop detection_msg hm henc hn] at hout
    simp only at hout
    cases hl : loopResult G M model image_msg detection_msg.detections with
    | error f =>
      rw [hl] at hout
      simp at hout
    | ok r =>
      obtain ⟨ls, out⟩ := r
      obtain ⟨_, _, hall⟩ := loopResult_ok henc hl
      have hsome : ∀ d ∈ detection_msg.detections,
          (produced G M model image_msg d).isSome = numberDepth M image_msg d := by
        intro d hd
        obtain ⟨o, ho⟩ := hall d hd
        rw [produced_of_processDetection ho]
        cases o with
        | none =>
          cases hnum : numberDepth M image_msg d with
          | false => rfl
          | true =>
            obtain ⟨depth, logs, hs, hnan⟩ := sampleDepth_of_numberDepth hnum
            rw [processDetection_of_number hs hnan] at ho
            split at ho <;> cases ho
        | some d3 =>
          have := numberDepth_of_produced (produced_of_processDetection ho)
          rw [this]
          rfl
      rw [hdet]
      refine List.Forall₂.imp ?_
        (forall₂_filter_filterMap (produced G M model image_msg) (numberDepth M image_msg)
          detection_msg.detections hsome)
      intro s d3 hp
      exact (produced_some hp).choose_spec.2.2.2

/-! ## The published batch (C1) -/

/-- C6, amended: for every "16UC1" frame and every detection whose rounded bbox-center pixel
holds the raw value zero, the sampled depth is the number 0 (not absent, not NaN) and the
detection is not skipped: when it carries at least one result the loop body pushes a
`Detection3D` for it, with its identifier and with the depth-axis coordinate of the point
back-projected at depth 0, which is 0 whenever the ray's depth-axis component is non-zero. -/
theorem raw_zero_is_kept (G : CameraGeometry) (M : Memory) (model : PinholeCameraModel)
    (image_msg : Image) (detection : Detection2D) (henc : image_msg.encoding = "16UC1")
    (hraw : matAt M.outside16 image_msg.width image_msg.data16
      { x := cvRound detection.bbox.center.position.x
        y := cvRound detection.bbox.center.position.y } = 0) :
    sampleDepth M image_msg detection = (some (Fp.fin 0), []) ∧
      depthOf M image_msg detection = some (Fp.fin 0) ∧
      numberDepth M image_msg detection = true ∧
      finiteDepth M image_msg detection = true ∧
      (detection.results ≠ [] →
        ∃ d3, processDetection G M model image_msg detection = Except.ok ([], some d3) ∧
          d3.id = detection.id ∧
          d3.bbox.center.position.z = (backProject G model detection (Fp.fin 0)).z) ∧
      ((G.projectPixelTo3dRay model
          (G.rectifyPoint model
            { x := detection.bbox.center.position.x
              y := detection.bbox.center.position.y })).z ≠ 0 →
        (backProject G model detection (Fp.fin 0)).z = Fp.fin 0) := by
  have hs : sampleDepth M image_msg detection = (some (Fp.fin 0), []) := by
    unfold sampleDepth sampleBranch
    simp only [henc, if_true, Point2d.toPoint2i]
    rw [hraw]
    simp [toMeters]
  have hdep : depthOf M image_msg detection = some (Fp.fin 0) := by
    unfold depthOf
    rw [hs]
  refine ⟨hs, hdep, ?_, ?_, ?_, ?_⟩
  · unfold numberDepth
    rw [hdep]
    rfl
  · unfold finiteDepth
    rw [hdep]
    rfl
  · intro hres
    obtain ⟨d3, hf⟩ := fillDetection3D_of_results (backProject G model detection (Fp.fin 0)) hres
    refine ⟨d3, ?_, ?_, ?_⟩
    · rw [processDetection_of_number hs rfl, hf]
    · obtain ⟨r0, rest, _, hd3⟩ := fillDetection3D_ok hf
      rw [hd3]
    · obtain ⟨r0, rest, _, hd3⟩ := fillDetection3D_ok hf
      rw [hd3]
  · intro hz
    rw [backProject_eq G model detection (Fp.fin 0) _ rfl hz]

/-! ## Evaluations at the concrete inputs -/

theorem callback_sync_offAxisBatch :
    (callback_sync skewGeometry onesMemory readyNode frame16 offAxisBatch 1).2 =
      Except.ok [Effect.publish
        { header := stampedHeader
          detections :=
            [detection3DAt "s" [cupResultAt 0 (3 / 4) (3 / 2), mugResult] 1 0 (3 / 2)] }] := by
  simp [callback_sync, readyNode, callback_info, frame16, offAxisBatch, detectionLoop,
    processDetection, sampleDepth, sampleBranch, detectionAt, matAt, matIndex, inBuffer,
    Point2d.toPoint2i, cvRound, roundHalfEven, INT_MIN, INT_MAX, Fp.isnan, fillDetection3D,
    backProject, skewGeometry, Ray.toPoint3d, Point3d.div, Point3d.mul, Fp.div, Fp.mul,
    cupResult, cupResultAt, detection3DAt, toMeters]
  norm_num

theorem callback_sync_cornerBatch :
    (callback_sync unitGeometry onesMemory readyNode frame32 cornerBatch 1).2 =
      Except.ok [Effect.publish
        { header := stampedHeader
          detections := [detection3DAt "c" [cupResultAt 3 3 3, mugResult] 1 1 3] }] := by
  simp [callback_sync, readyNode, callback_info, frame32, cornerBatch, detectionLoop,
    processDetection, sampleDepth, sampleBranch, detectionAt, matAt, matIndex, inBuffer,
    Point2d.toPoint2i, cvRound, roundHalfEven, INT_MIN, INT_MAX, Fp.isnan, fillDetection3D,
    backProject, unitGeometry, Ray.toPoint3d, Point3d.div, Point3d.mul, Fp.div, Fp.mul,
    cupResult, cupResultAt, detection3DAt]

theorem callback_sync_zero_sample :
    (callback_sync unitGeometry onesMemory readyNode frame16 principalBatch 1).2 =
      Except.ok [Effect.publish
        { header := stampedHeader
          detections := [detection3DAt "a" [cupResultAt 0 0 0, mugResult] 0 0 0] }] := by
  simp [callback_sync, readyNode, callback_info, frame16, principalBatch, detectionLoop,
    processDetection, sampleDepth, sampleBranch, detectionAt, matAt, matIndex, inBuffer,
    Point2d.toPoint2i, cvRound, roundHalfEven, INT_MIN, INT_MAX, Fp.isnan, fillDetection3D,
    backProject, unitGeometry, Ray.toPoint3d, Point3d.div, Point3d.mul, Fp.div, Fp.mul,
    cupResult, cupResultAt, detection3DAt, toMeters]

/-! ## The claims at concrete inputs -/

/-- C2 at the failing input: the node is ready, the encoding is supported, there is one
subscriber and a `Detection3D` is produced for "c", so the table prescribes one published
batch; but "e", which follows with the finite depth 2 and an empty result set, makes the loop
write `results[0]` of an empty vector: the cycle stops there and no batch is published. -/
theorem decision_table_fails_on_empty_results :
    readyNode.model_.isSome = true ∧ supported frame32.encoding = true ∧
      (produced unitGeometry onesMemory unitModel frame32
        (detectionAt "c" [cupResult] 1 1)).isSome = true ∧
      producedBy unitGeometry onesMemory readyNode frame32 emptyResultsLastBatch ≠ [] ∧
      decisionTable readyNode.model_.isSome (supported frame32.encoding) 1
          emptyResultsLastBatch.header
          (producedBy unitGeometry onesMemory readyNode frame32 emptyResultsLastBatch) =
        [Effect.publish
          { header := emptyResultsLastBatch.header
            detections :=
              producedBy unitGeometry onesMemory readyNode frame32 emptyResultsLastBatch }] ∧
      (callback_sync unitGeometry onesMemory readyNode frame32 emptyResultsLastBatch 1).2 =
        Except.error Fault.vectorOutOfRange ∧
      published
        (callback_sync unitGeometry onesMemory readyNode frame32 emptyResultsLastBatch 1).2 =
          [] := by
  refine ⟨by decide, by decide, by decide, by decide, ?_, by decide, by decide⟩
  have h : producedBy unitGeometry onesMemory readyNode frame32 emptyResultsLastBatch ≠ [] := by
    decide
  have h1 : readyNode.model_.isSome = true := by decide
  have h2 : supported frame32.encoding = true := by decide
  rw [h1, h2]
  simp [decisionTable, h]

/-- C3 as stated fails: the detection "i" samples +Inf, which is not a finite number, and a
batch holding a `Detection3D` for "i" is published. -/
theorem infinite_depth_is_emitted :
    sampleDepth onesMemory frame32 (detectionAt "i" [cupResult] 0 1) =
        (some Fp.posInf, []) ∧
      Fp.posInf.isfinite = false ∧
      finiteDepth onesMemory frame32 (detectionAt "i" [cupResult] 0 1) = false ∧
      (published (callback_sync unitGeometry onesMemory readyNode frame32 infiniteBatch 1).2).map
          (fun batch => batch.detections.map (fun d3 => d3.id)) = [["i"]] := by
  refine ⟨by decide, by decide, by decide, by decide⟩

/-- C3, amended, at a concrete input: the detection "n" of `fullBatch`, which samples NaN. -/
theorem nan_depth_is_dropped_witness :
    supported frame32.encoding = true ∧
      sampleDepth onesMemory frame32 (detectionAt "n" [cupResult] 1 0) = (some Fp.nan, []) ∧
      (published (callback_sync unitGeometry onesMemory readyNode frame32 fullBatch 1).2).map
          (fun batch => batch.detections.map (fun d3 => d3.id)) = [["a", "i", "c"]] ∧
      ∃ depth,
        sampleDepth onesMemory frame32 (detectionAt "n" [cupResult] 1 0) = (some depth, []) ∧
          (depth.isnan = true →
            processDetection unitGeometry onesMemory unitModel frame32
              (detectionAt "n" [cupResult] 1 0) = Except.ok ([], none)) :=
  ⟨by decide, by decide, by decide,
    (nan_depth_is_dropped unitGeometry onesMemory readyNode frame32 fullBatch 1).1 unitModel
      (detectionAt "n" [cupResult] 1 0) (by decide)⟩

/-- C4 at a concrete input: detection "s" at pixel `(1, 0)` of `frame16`, raw sample 1500 and
depth 3/2, under a geometry whose rectification gives `(0, 1)` and whose ray is `(0, 1, 2)`: the
normalised ray is `(0, 1/2, 1)` and the detection is emitted at position `(0, 3/4, 3/2)`. -/
theorem emitted_position_is_scaled_ray_witness :
    ({ header := stampedHeader
       detections :=
         [detection3DAt "s" [cupResultAt 0 (3 / 4) (3 / 2), mugResult] 1 0 (3 / 2)] } ∈
        published (callback_sync skewGeometry onesMemory readyNode frame16 offAxisBatch 1).2 ∧
      detection3DAt "s" [cupResultAt 0 (3 / 4) (3 / 2), mugResult] 1 0 (3 / 2) ∈
        [detection3DAt "s" [cupResultAt 0 (3 / 4) (3 / 2), mugResult] 1 0 (3 / 2)]) ∧
      ∃ model s depth r0 rest, readyNode.model_ = some model ∧
        s ∈ offAxisBatch.detections ∧
        processDetection skewGeometry onesMemory model frame16 s =
          Except.ok ([],
            some (detection3DAt "s" [cupResultAt 0 (3 / 4) (3 / 2), mugResult] 1 0 (3 / 2))) ∧
        sampleDepth onesMemory frame16 s = (some depth, []) ∧
        (detection3DAt "s" [cupResultAt 0 (3 / 4) (3 / 2), mugResult] 1 0 (3 / 2)).results =
          r0 :: rest ∧
        ∀ r : Ray,
          r = skewGeometry.projectPixelTo3dRay model
              (skewGeometry.rectifyPoint model
                { x := s.bbox.center.position.x, y := s.bbox.center.position.y }) →
            r.z ≠ 0 →
              (r.toPoint3d.div r.toPoint3d.z).z = Fp.fin 1 ∧
                r0.pose.pose.position =
                  { x := (r.x.div (Fp.fin r.z)).mul depth
                    y := (r.y.div (Fp.fin r.z)).mul depth
                    z := depth } ∧
                ∀ a b q : ℚ, r.x = Fp.fin a → r.y = Fp.fin b → depth = Fp.fin q →
                  r0.pose.pose.position =
                    { x := Fp.fin (a / r.z * q), y := Fp.fin (b / r.z * q), z := Fp.fin q } :=
  have hb : ({ header := stampedHeader
               detections :=
                 [detection3DAt "s" [cupResultAt 0 (3 / 4) (3 / 2), mugResult] 1 0 (3 / 2)] } :
      Detection3DArray) ∈
      published (callback_sync skewGeometry onesMemory readyNode frame16 offAxisBatch 1).2 := by
    rw [callback_sync_offAxisBatch]
    simp [published]
  ⟨⟨hb, List.mem_singleton.mpr rfl⟩,
    emitted_position_is_scaled_ray skewGeometry onesMemory readyNode frame16 offAxisBatch 1 _ _
      hb (List.mem_singleton.mpr rfl)⟩

/-- C5 at a concrete input: the detection "c" at pixel `(1, 1)`, with sampled depth 3 and two
results, is emitted with position `(3, 3, 3)`. -/
theorem emitted_detection_fields_witness :
    ({ header := stampedHeader
       detections := [detection3DAt "c" [cupResultAt 3 3 3, mugResult] 1 1 3] } ∈
        published (callback_sync unitGeometry onesMemory readyNode frame32 cornerBatch 1).2 ∧
      detection3DAt "c" [cupResultAt 3 3 3, mugResult] 1 1 3 ∈
        [detection3DAt "c" [cupResultAt 3 3 3, mugResult] 1 1 3]) ∧
      ∃ model s depth r0 rest r0', readyNode.model_ = some model ∧
        s ∈ cornerBatch.detections ∧
        processDetection unitGeometry onesMemory model frame32 s =
          Except.ok ([], some (detection3DAt "c" [cupResultAt 3 3 3, mugResult] 1 1 3)) ∧
        sampleDepth onesMemory frame32 s = (some depth, []) ∧
        s.results = r0 :: rest ∧
        (detection3DAt "c" [cupResultAt 3 3 3, mugResult] 1 1 3).results = r0' :: rest ∧
        (detection3DAt "c" [cupResultAt 3 3 3, mugResult] 1 1 3).results.length =
          s.results.length ∧
        r0'.hypothesis = r0.hypothesis ∧
        r0'.pose.pose.orientation = r0.pose.pose.orientation ∧
        r0'.pose.covariance = r0.pose.covariance ∧
        r0'.pose.pose.position =
          { x := (backProject unitGeometry model s depth).x
            y := (backProject unitGeometry model s depth).y
            z := (backProject unitGeometry model s depth).z } ∧
        (detection3DAt "c" [cupResultAt 3 3 3, mugResult] 1 1 3).bbox.center.position =
          { x := s.bbox.center.position.x
            y := s.bbox.center.position.y
            z := (backProject unitGeometry model s depth).z } ∧
        (detection3DAt "c" [cupResultAt 3 3 3, mugResult] 1 1 3).bbox.size =
          { x := s.bbox.size_x, y := s.bbox.size_y, z := Fp.fin 0 } ∧
        (detection3DAt "c" [cupResultAt 3 3 3, mugResult] 1 1 3).id = s.id :=
  have hb : ({ header := stampedHeader
               detections := [detection3DAt "c" [cupResultAt 3 3 3, mugResult] 1 1 3] } :
      Detection3DArray) ∈
      published (callback_sync unitGeometry onesMemory readyNode frame32 cornerBatch 1).2 := by
    rw [callback_sync_cornerBatch]
    simp [published]
  ⟨⟨hb, List.mem_singleton.mpr rfl⟩,
    emitted_detection_fields unitGeometry onesMemory readyNode frame32 cornerBatch 1 _ _ hb
      (List.mem_singleton.mpr rfl)⟩

/-- C6 as stated fails: on the "16UC1" frame the bbox-center pixel `(0, 0)` of detection "a"
holds the raw value zero, yet the detection is not skipped: a batch is published with a
`Detection3D` for it, positioned at the camera origin `(0, 0, 0)`. -/
theorem raw_zero_detection_is_published :
    frame16.encoding = "16UC1" ∧
      centerInFrame frame16 (detectionAt "a" [cupResult, mugResult] 0 0) = true ∧
      frame16.data16[0]? = some 0 ∧
      matAt onesMemory.outside16 frame16.width frame16.data16
          { x := cvRound (detectionAt "a" [cupResult, mugResult] 0 0).bbox.center.position.x
            y := cvRound (detectionAt "a" [cupResult, mugResult] 0 0).bbox.center.position.y } =
        0 ∧
      published (callback_sync unitGeometry onesMemory readyNode frame16 principalBatch 1).2 =
        [{ header := stampedHeader
           detections := [detection3DAt "a" [cupResultAt 0 0 0, mugResult] 0 0 0] }] := by
  refine ⟨by decide, by decide, by decide, by decide, ?_⟩
  rw [callback_sync_zero_sample]
  simp [published]

/-- C6, amended, at a concrete input: detection "a" on the pixel `(0, 0)` of `frame16`. -/
theorem raw_zero_is_kept_witness :
    (frame16.encoding = "16UC1" ∧
        matAt onesMemory.outside16 frame16.width frame16.data16
          { x := cvRound (detectionAt "a" [cupResult] 0 0).bbox.center.position.x
            y := cvRound (detectionAt "a" [cupResult] 0 0).bbox.center.position.y } = 0) ∧
      sampleDepth onesMemory frame16 (detectionAt "a" [cupResult] 0 0) =
        (some (Fp.fin 0), []) ∧
      numberDepth onesMemory frame16 (detectionAt "a" [cupResult] 0 0) = true :=
  ⟨⟨by decide, by decide⟩,
    (raw_zero_is_kept unitGeometry onesMemory unitModel frame16
      (detectionAt "a" [cupResult] 0 0) (by decide) (by decide)).1,
    (raw_zero_is_kept unitGeometry onesMemory unitModel frame16
      (detectionAt "a" [cupResult] 0 0) (by decide) (by decide)).2.2.1⟩

/-- C7 at the failing input: the rounded bbox-center pixel `(5, 0)` of detection "b" lies
outside the 2 x 2 frame and its element offset 5 lies outside the 4-sample buffer; the sampling
reads there all the same, for the "32FC1" and for the "16UC1" frame, so the depth is not absent
but whatever the memory beside the buffer holds; with the value 1 there, a `Detection3D` is
produced and published for "b". -/
theorem outside_center_indexes_outside_buffer :
    centerInFrame frame32 (detectionAt "b" [cupResult] 5 0) = false ∧
      matIndex frame32.width
          { x := cvRound (detectionAt "b" [cupResult] 5 0).bbox.center.position.x
            y := cvRound (detectionAt "b" [cupResult] 5 0).bbox.center.position.y } = 5 ∧
      frame32.data32.length = 4 ∧ frame16.data16.length = 4 ∧
      inBuffer frame32.data32.length 5 = false ∧
      (∀ M : Memory,
        sampleDepth M frame32 (detectionAt "b" [cupResult] 5 0) =
          (some (M.outside32 5), [])) ∧
      (∀ M : Memory,
        sampleDepth M frame16 (detectionAt "b" [cupResult] 5 0) =
          (some (toMeters (M.outside16 5)), [])) ∧
      (produced unitGeometry onesMemory unitModel frame32
        (detectionAt "b" [cupResult] 5 0)).isSome = true ∧
      (published
          (callback_sync unitGeometry onesMemory readyNode frame32 outsideFirstBatch 1).2).map
          (fun batch => batch.detections.map (fun d3 => d3.id)) = [["b", "a"]] := by
  refine ⟨by decide, by decide, by decide, by decide, by decide, fun M => rfl, fun M => rfl,
    by decide, by decide⟩

/-- C8 at the failing input: detection "e" has an empty result set and the finite sampled depth
2; the loop body writes `results[0]` of the empty vector (a fault), no `Detection3D` is produced
for "e" and the detection "c" that follows it is not processed. -/
theorem empty_results_index_out_of_range :
    (detectionAt "e" [] 0 0).results = [] ∧
      depthOf onesMemory frame32 (detectionAt "e" [] 0 0) = some (Fp.fin 2) ∧
      finiteDepth onesMemory frame32 (detectionAt "e" [] 0 0) = true ∧
      processDetection unitGeometry onesMemory unitModel frame32 (detectionAt "e" [] 0 0) =
        Except.error Fault.vectorOutOfRange ∧
      (callback_sync unitGeometry onesMemory readyNode frame32 emptyResultsBatch 1).2 =
        Except.error Fault.vectorOutOfRange ∧
      published (callback_sync unitGeometry onesMemory readyNode frame32 emptyResultsBatch 1).2 =
        [] := by
  refine ⟨by decide, by decide, by decide, by decide, by decide, by decide⟩

/-- C9 at a concrete input: two calibrations with a matched pair in between; the stored model
is the one built from the second calibration. -/
theorem stored_model_is_last_calibration_witness :
    (run unitGeometry onesMemory Node.init
        [Event.info unitInfo, Event.sync frame32 fullBatch 1, Event.info otherInfo]).model_ =
      some (PinholeCameraModel.fromCameraInfo otherInfo) :=
  (stored_model_is_last_calibration unitGeometry onesMemory
    [Event.info unitInfo, Event.sync frame32 fullBatch 1, Event.info otherInfo]).1

end perception_2d_to_3d
